import Mathlib

/-!
Verification development for the Stock-Assistant repository.

The Python sources are shallowly embedded below.  Conventions:
- Python `str` is `String`; `int` durations/periods are `ℕ`; scores and prices
  are `ℚ` (the float arithmetic in scope is exact decimal scaling by 0.5 and
  comparisons, which ℚ models exactly); instants (`datetime`) are `ℤ` seconds,
  so `timedelta(days=x)` is `x * 86400`.
- A Python dict field read with `d.get(k)` / `d.get(k, dflt)` is an `Option`
  read; a raising read `d[k]` (or a method call on a possibly-`None` value)
  is modelled in `Except Unit`, with `.error ()` standing for the raised
  exception; a `try/except` that returns a fallback maps the `.error` case
  to that fallback.
- `re` pattern matching is abstracted by a `Matcher` argument giving, for each
  pattern of `PromptProcessor.patterns`, the optional capture-group list that
  `re.search` would produce on a text; the structural guarantees of the fixed
  regexes (which groups are present, digit-only captures, unit words) are the
  `GroupsWF` predicate.
-/

set_option maxRecDepth 100000

deriving instance DecidableEq for Except

namespace StockAssistant

/-!
String operations are modelled over `String.data` (its character list) by
structural recursion, so that every definition evaluates inside the kernel;
they implement exactly the Python operations named in their doc comments.
-/

/-- Python `needle in hay` on strings: substring containment. -/
def pyInStr (needle hay : String) : Bool :=
  (List.range (hay.data.length + 1)).any (fun i => needle.data.isPrefixOf (hay.data.drop i))

/-- Python `s.upper()` (ASCII case mapping, which covers every string the
program manipulates). -/
def pyUpper (s : String) : String :=
  ⟨s.data.map Char.toUpper⟩

/-- Python `s.lower()`. -/
def pyLower (s : String) : String :=
  ⟨s.data.map Char.toLower⟩

/-- Python `s.strip()`: drop leading and trailing whitespace. -/
def pyTrim (s : String) : String :=
  ⟨(((s.data.dropWhile Char.isWhitespace).reverse.dropWhile Char.isWhitespace).reverse)⟩

/-- Python `s.startswith(pre)`. -/
def pyStartsWith (s pre : String) : Bool :=
  pre.data.isPrefixOf s.data

/-- Python `len(s)`: the number of characters. -/
def pyLen (s : String) : ℕ := s.data.length

/-- Helper for `pySplit`: split a character list on the separator predicate,
dropping empty runs (`acc` is the current word, reversed). -/
def splitDropAux (p : Char → Bool) : List Char → List Char → List String
  | [], acc => if acc = [] then [] else [⟨acc.reverse⟩]
  | c :: cs, acc =>
    if p c then
      if acc = [] then splitDropAux p cs []
      else ⟨acc.reverse⟩ :: splitDropAux p cs []
    else splitDropAux p cs (c :: acc)

/-- Python `s.split()`: split on whitespace runs, dropping empty pieces. -/
def pySplit (s : String) : List String :=
  splitDropAux Char.isWhitespace s.data []

/-- The numeral value of a digit-only character list. -/
def digitsToNat (l : List Char) : ℕ :=
  l.foldl (fun n c => n * 10 + (c.toNat - 48)) 0

/-- Python `int(s)` on a string: raises unless the text is a numeral.  (The
call sites only ever receive `\d+` captures, i.e. nonempty digit-only text,
on which this agrees with `int`.) -/
def pyInt (s : String) : Except Unit ℕ :=
  if s.data ≠ [] ∧ s.data.all Char.isDigit then .ok (digitsToNat s.data)
  else .error ()

/-- `int(s)` succeeds on `s`: the shape every `(\d+)` capture has. -/
def IsNumeral (s : String) : Prop :=
  s.data ≠ [] ∧ s.data.all Char.isDigit

/-- A raising use of a possibly-missing / possibly-`None` value, e.g. a `d[k]`
dict access or a `.strip()` call on a capture that may be `None`. -/
def pyReq {α : Type} (o : Option α) : Except Unit α :=
  match o with
  | some a => .ok a
  | none => .error ()

/-- Python `x or dflt` for an optional string `x` (both `None` and `""` are
falsy and select the default). -/
def pyOr (o : Option String) (dflt : String) : String :=
  match o with
  | none => dflt
  | some s => if s = "" then dflt else s

/-- Python `s.strip() if s else None` (both `None` and `""` give `None`). -/
def pyStripIf (o : Option String) : Option String :=
  match o with
  | none => none
  | some s => if s = "" then none else some (pyTrim s)

/-- Python `f"{o}"` for an optional string: `None` prints as "None". -/
def optStr (o : Option String) : String :=
  match o with
  | some s => s
  | none => "None"

/-! ## Intent matcher (src/processors/prompt_processor.py) -/

/-- The keys of `PromptProcessor.patterns`, one per intent regex. -/
inductive QueryType where
  | historical
  | top_performers
  | trend_analysis
  | stock_details
  | price_movement
  | market_sentiment
  | volume_analysis
  | sector_performance
  | comparison
  | support_resistance
  | moving_averages
  | rsi_analysis
  | dividend_history
  | news_sentiment
deriving DecidableEq, Repr

/-- The declared insertion order of `self.patterns` (a Python 3.7+ dict keeps
insertion order, and `process_prompt` iterates `self.patterns.items()`). -/
def patternOrder : List QueryType :=
  [.historical, .top_performers, .trend_analysis, .stock_details,
   .price_movement, .market_sentiment, .volume_analysis, .sector_performance,
   .comparison, .support_resistance, .moving_averages, .rsi_analysis,
   .dividend_history, .news_sentiment]

/-- The string name of an intent, as used for the dict key and `action`. -/
def qtName : QueryType → String
  | .historical => "historical"
  | .top_performers => "top_performers"
  | .trend_analysis => "trend_analysis"
  | .stock_details => "stock_details"
  | .price_movement => "price_movement"
  | .market_sentiment => "market_sentiment"
  | .volume_analysis => "volume_analysis"
  | .sector_performance => "sector_performance"
  | .comparison => "comparison"
  | .support_resistance => "support_resistance"
  | .moving_averages => "moving_averages"
  | .rsi_analysis => "rsi_analysis"
  | .dividend_history => "dividend_history"
  | .news_sentiment => "news_sentiment"

/-- Capture groups of one `re.search` result: `match.group(i)` is entry
`i-1`, `none` when the optional group did not participate. -/
def Groups := List (Option String)

/-- Abstraction of `re.search(self.patterns[qt], text)`: `none` when the
pattern does not match, otherwise the capture groups. -/
def Matcher := QueryType → String → Option (List (Option String))

/-- An instrument record as `find_matching_instruments` expects it from
`get_all_instruments()`: dict keys read raising (`tradingsymbol`, `exchange`,
`instrument_type`) are `Option` fields fed through `pyReq`; keys read with
`.get` (`company_name`, `instrument_token`) default when absent. -/
structure PyInstrument where
  tradingsymbol : Option String
  company_name : Option String
  exchange : Option String
  instrument_type : Option String
  instrument_token : Option ℤ
deriving DecidableEq, Repr

/-- A match entry built by `find_matching_instruments`. -/
structure Candidate where
  symbol : String
  name : String
  exchange : String
  instrument_type : String
  token : Option ℤ
deriving DecidableEq, Repr

/-- The loop body of `PromptProcessor.find_matching_instruments`: for each
instrument, test `query in instrument['tradingsymbol'] or query in
instrument.get('company_name', '').upper()` and collect the match dict. -/
def fmiLoop (q : String) : List PyInstrument → Except Unit (List Candidate)
  | [] => .ok []
  | inst :: rest => do
    let ts ← pyReq inst.tradingsymbol
    if pyInStr q ts || pyInStr q (pyUpper (inst.company_name.getD "")) then do
      let ex ← pyReq inst.exchange
      let it ← pyReq inst.instrument_type
      let tail ← fmiLoop q rest
      .ok ({ symbol := ts, name := inst.company_name.getD ts,
               exchange := ex,
               instrument_type := it, token := inst.instrument_token } :: tail)
    else
      fmiLoop q rest

/-- The body of `find_matching_instruments` before its blanket `except`:
uppercase and strip the query, then scan the instrument list. -/
def findMatchingInstrumentsCore (insts : List PyInstrument) (query : String) :
    Except Unit (List Candidate) :=
  fmiLoop (pyUpper (pyTrim query)) insts

/-- `PromptProcessor.find_matching_instruments` over a given instrument list:
any exception inside is caught and the empty list returned. -/
def find_matching_instruments (insts : List PyInstrument) (query : String) :
    List Candidate :=
  match findMatchingInstrumentsCore insts query with
  | .ok l => l
  | .error _ => []

/-- As wired in this repository, `self.instrument_mapper` is the
`utils.instrument_mapper.InstrumentMapper`, which defines no
`get_all_instruments` method: the attribute lookup raises `AttributeError`
before any instrument is seen. -/
def get_all_instruments_wired : Except Unit (List PyInstrument) := .error ()

/-- `find_matching_instruments` as actually executed in the repository: the
`get_all_instruments()` call raises, the blanket `except` catches it, and the
empty list is returned for every query. -/
def find_matching_instruments_wired (query : String) : List Candidate :=
  match get_all_instruments_wired with
  | .error _ => []
  | .ok insts => find_matching_instruments insts query

/-- `PromptProcessor._calculate_date_range`'s `unit_mapping` table, in seconds
(`timedelta(days=1)` = 86400 s, `timedelta(weeks=1)` = 7 days). -/
def unit_mapping (u : String) (x : ℕ) : Option ℤ :=
  if u = "day" then some (x * 86400)
  else if u = "week" then some (x * 7 * 86400)
  else if u = "month" then some (x * 30 * 86400)
  else if u = "year" then some (x * 365 * 86400)
  else none

/-- `PromptProcessor._calculate_date_range`: `today - unit_mapping[unit.lower()](duration)`;
a unit outside the table raises `KeyError`. -/
def calculate_date_range (now : ℤ) (duration : ℕ) (unit : String) : Except Unit ℤ :=
  match unit_mapping (pyLower unit) duration with
  | some d => .ok (now - d)
  | none => .error ()

/-- The `result['parameters']` dict: each key is `none` until a branch sets it. -/
structure Params where
  symbol : Option String := none
  symbol1 : Option String := none
  symbol2 : Option String := none
  sector : Option String := none
  period : Option ℕ := none
  duration : Option ℕ := none
  count : Option ℕ := none
  unit : Option String := none
  from_date : Option ℤ := none
  instrument_token : Option ℤ := none
deriving DecidableEq, Repr

def emptyParams : Params := {}

/-- The `result['matches']` value: a candidate list, except for the
comparison branch which stores a two-entry dict of lists. -/
inductive MatchesVal where
  | lst (l : List Candidate)
  | dict (symbol1 symbol2 : List Candidate)
deriving DecidableEq, Repr

/-- The result dict of a `process_prompt` run that reached the end of the
loop body (or matched nothing). -/
structure PyResult where
  action : Option String
  query_type : Option QueryType
  parameters : Params
  -- the `matches` key (the name `matches` is reserved in Lean)
  matchesv : MatchesVal
  original_prompt : String
deriving DecidableEq, Repr

/-- Outcome of `process_prompt`: either the result dict, or the
`except`-branch dict carrying only `action=None`, the error text and the
original prompt. -/
inductive ProcessOutcome where
  | ok (r : PyResult)
  | failed (original_prompt : String)
deriving DecidableEq, Repr

/-- The per-intent parameter extraction of `process_prompt` (lines 74-132):
the explicit branches for `moving_averages`, `comparison`,
`sector_performance`, `support_resistance`, `rsi_analysis` and
`volume_analysis`, and `_extract_basic_parameters` for the rest.  Returns
the parameters together with the `matches` value that the branch itself set
(only the comparison branch sets one; the others leave the initial `[]`). -/
def extractParams (insts : List PyInstrument) (qt : QueryType) (g : Groups)
    (now : ℤ) : Except Unit (Params × MatchesVal) :=
  match qt with
  | .moving_averages => do
    let pstr := pyOr (g.getD 0 none) "50"
    let sym ← pyReq (g.getD 1 none)
    let p ← pyInt pstr
    let fd ← calculate_date_range now p "day"
    .ok ({ emptyParams with
             symbol := some (pyTrim sym), period := some p, from_date := some fd },
         .lst [])
  | .comparison => do
    let s1 ← pyReq (g.getD 0 none)
    let s2 ← pyReq (g.getD 1 none)
    .ok ({ emptyParams with
             symbol1 := some (pyTrim s1), symbol2 := some (pyTrim s2),
             duration := some 30, unit := some "day" },
         .dict (find_matching_instruments insts s1)
               (find_matching_instruments insts s2))
  | .sector_performance => do
    let sec ← pyReq (g.getD 0 none)
    .ok ({ emptyParams with
             sector := some (pyTrim sec), duration := some 30,
             unit := some "day" }, .lst [])
  | .support_resistance => do
    let sym ← pyReq (g.getD 0 none)
    .ok ({ emptyParams with
             symbol := some (pyTrim sym), duration := some 90,
             unit := some "day" }, .lst [])
  | .rsi_analysis => do
    let sym ← pyReq (g.getD 0 none)
    .ok ({ emptyParams with
             symbol := some (pyTrim sym), period := some 14,
             duration := some 30, unit := some "day" }, .lst [])
  | .volume_analysis => do
    let sym ← pyReq (g.getD 0 none)
    .ok ({ emptyParams with
             symbol := some (pyTrim sym), duration := some 30,
             unit := some "day" }, .lst [])
  | .historical => extractBasicDUS g now
  | .price_movement => extractBasicDUS g now
  | .top_performers => do
    let c ← pyInt (← pyReq (g.getD 0 none))
    let d ← pyInt (← pyReq (g.getD 1 none))
    let u ← pyReq (g.getD 2 none)
    let fd ← calculate_date_range now d u
    .ok ({ emptyParams with
             count := some c, duration := some d,
             unit := some u, from_date := some fd }, .lst [])
  | _ => do
    let sym := pyStripIf (g.getD 0 none)
    let fd ← calculate_date_range now 30 "day"
    .ok ({ emptyParams with
             symbol := sym, duration := some 30,
             unit := some "day", from_date := some fd }, .lst [])
where
  /-- `_extract_basic_parameters` for `historical` / `price_movement`:
  `duration, unit, symbol = match.groups()`, with `int(duration)`,
  `symbol.strip()` and the date-range lookup all raising on bad input. -/
  extractBasicDUS (g : Groups) (now : ℤ) : Except Unit (Params × MatchesVal) := do
    let d ← pyInt (← pyReq (g.getD 0 none))
    let u ← pyReq (g.getD 1 none)
    let sym ← pyReq (g.getD 2 none)
    let fd ← calculate_date_range now d u
    .ok ({ emptyParams with
             duration := some d, unit := some u,
             symbol := some (pyTrim sym), from_date := some fd }, .lst [])

/-- Lines 134-142 of `process_prompt`: if the extracted parameters carry a
truthy `symbol`, run the candidate search, store it under `matches`, and when
it yields exactly one candidate rewrite `symbol` to the canonical trading
symbol and attach its token. -/
def resolveSymbol (insts : List PyInstrument) (p : Params) (m : MatchesVal) :
    Params × MatchesVal :=
  match p.symbol with
  | none => (p, m)
  | some s =>
    if s = "" then (p, m)
    else
      let ms := find_matching_instruments insts s
      match ms with
      | [c] => ({ p with symbol := some c.symbol, instrument_token := c.token },
                .lst ms)
      | _ => (p, .lst ms)

/-- The whole matched-pattern branch body: extraction, then symbol
resolution, then the filled result dict. -/
def extractResolve (insts : List PyInstrument) (qt : QueryType) (g : Groups)
    (now : ℤ) (prompt : String) : Except Unit PyResult := do
  let (p0, m0) ← extractParams insts qt g now
  let (p1, m1) := resolveSymbol insts p0 m0
  .ok { action := some ("get_" ++ qtName qt), query_type := some qt,
        parameters := p1, matchesv := m1, original_prompt := prompt }

/-- The `for query_type, pattern in self.patterns.items()` loop head: the
first pattern (in declared order) whose `re.search` matches. -/
def findFirstPattern (m : Matcher) (prompt : String) :
    List QueryType → Option (QueryType × List (Option String))
  | [] => none
  | qt :: rest =>
    match m qt prompt with
    | some g => some (qt, g)
    | none => findFirstPattern m prompt rest

/-- `PromptProcessor.process_prompt`: try the patterns in order, commit to the
first match (`break`), extract parameters and resolve the symbol; any
exception on the way is caught and the error dict returned; if nothing
matches, the initial result dict (null `query_type`) is returned. -/
def process_prompt (m : Matcher) (insts : List PyInstrument) (now : ℤ)
    (prompt : String) : ProcessOutcome :=
  match findFirstPattern m prompt patternOrder with
  | none => .ok { action := none, query_type := none, parameters := emptyParams,
                  matchesv := .lst [], original_prompt := prompt }
  | some (qt, g) =>
    match extractResolve insts qt g now prompt with
    | .ok r => .ok r
    | .error _ => .failed prompt

/-- Structural guarantees of the fixed regexes in `self.patterns`: the number
of capture groups, which of them are optional, that `(\d+)` captures parse as
naturals and that the unit alternation captures are (case-insensitive) unit
words.  Note the `price_movement` regex captures the SYMBOL first —
`([A-Za-z\s]+)` is group 1, before `(\d+)` and the unit — so its first
capture is nonempty letters-and-whitespace text, never a numeral; the
extraction code nevertheless unpacks `duration, unit, symbol`. -/
def GroupsWF (qt : QueryType) (g : List (Option String)) : Prop :=
  match qt with
  | .historical =>
    ∃ d u s, g = [some d, some u, some s] ∧ IsNumeral d ∧
      pyLower u ∈ (["year", "month", "day", "week"] : List String)
  | .top_performers =>
    ∃ c d u, g = [some c, some d, some u] ∧ IsNumeral c ∧
      IsNumeral d ∧ pyLower u ∈ (["day", "month", "week"] : List String)
  | .price_movement =>
    ∃ s d u, g = [some s, some d, some u] ∧ s.data ≠ [] ∧
      s.data.all (fun c => c.isAlpha || c.isWhitespace) = true ∧
      IsNumeral d ∧ pyLower u ∈ (["day", "month", "week"] : List String)
  | .trend_analysis => ∃ o, g = [o]
  | .market_sentiment => ∃ o, g = [o]
  | .comparison => ∃ s1 s2, g = [some s1, some s2]
  | .moving_averages =>
    ∃ o s, g = [o, some s] ∧
      ∀ ps, o = some ps → ps ≠ "" → IsNumeral ps
  | _ => ∃ s, g = [some s]

/-- A matcher is well formed when every successful match has the capture
shape its fixed regex guarantees. -/
def WellFormedMatcher (m : Matcher) : Prop :=
  ∀ qt prompt g, m qt prompt = some g → GroupsWF qt g

/-! ## Instrument directory (src/utils/instrument_mapper.py) -/

/-- An entry of `_instruments_cache` as produced by `_process_master_data`:
every key is present; a field is `none` when the stored value is `None`
(the upstream master may omit any attribute). -/
structure CacheInstrument where
  exchange : Option String
  trading_symbol : Option String
  name : Option String
  instrument_type : Option String
  short_name : Option String
  isin : Option String
  token : Option ℤ
deriving DecidableEq, Repr

/-- The `(short_type, full_type)` pairs of the `instrument_types` dict inside
`smart_search`, in declared order. -/
def instrumentTypePairs : List (String × String) :=
  [("EQ", "EQUITY"), ("FUT", "FUTURES"), ("OPT", "OPTIONS"), ("IDX", "INDEX")]

/-- The score the `smart_search` loop assigns to one instrument.  `pr` models
`fuzz.partial_ratio` (an integer in 0..100); `q` is the uppercased, stripped
query and `parts` its whitespace split.  Raises when `instrument.get('name')`
is a stored `None` (the code calls `.upper()` on it unguarded). -/
def smartSearchScore (pr : String → String → ℕ) (q : String)
    (parts : List String) (inst : CacheInstrument) : Except Unit ℚ :=
  match inst.name with
  | none => .error ()
  | some nm =>
    .ok ((if inst.trading_symbol = some q then (100 : ℚ)
          else if parts.any (fun part => inst.trading_symbol = some part) then 80
          else 0)
      + (pr q (pyUpper nm) : ℚ) * (1 / 2)
      + (if inst.short_name = some q then (90 : ℚ)
         else if parts.any (fun part => inst.short_name = some part) then 70
         else 0)
      + (if pyStartsWith q "IN" ∧ pyLen q = 12 ∧ inst.isin = some q
         then (100 : ℚ) else 0)
      + (instrumentTypePairs.foldl
          (fun acc p =>
            acc + (if (p.1 ∈ parts ∨ p.2 ∈ parts) ∧
                      (inst.instrument_type = some p.1 ∨ inst.instrument_type = some p.2)
                   then (50 : ℚ) else 0)) 0)
      + ((["NSE", "BSE"] : List String).foldl
          (fun acc e =>
            acc + (if e ∈ parts ∧ inst.exchange = some e then (50 : ℚ) else 0)) 0))

/-- `_format_instrument_display`. -/
def format_instrument_display (inst : CacheInstrument) : String :=
  "Symbol: " ++ optStr inst.trading_symbol ++ " | Name: " ++ optStr inst.name ++
  " | Type: " ++ optStr inst.instrument_type ++ " | Exchange: " ++ optStr inst.exchange

/-- One entry of the `matches` list built by `smart_search`. -/
structure ScoredMatch where
  instrument : CacheInstrument
  score : ℚ
  display_text : String
deriving DecidableEq, Repr

/-- The `smart_search` accumulation loop: keep every instrument whose score
exceeds the relevance threshold of 50. -/
def smartSearchLoop (pr : String → String → ℕ) (q : String)
    (parts : List String) : List CacheInstrument → Except Unit (List ScoredMatch)
  | [] => .ok []
  | inst :: rest =>
    match smartSearchScore pr q parts inst with
    | .error e => .error e
    | .ok sc =>
      match smartSearchLoop pr q parts rest with
      | .error e => .error e
      | .ok tail =>
        if sc > 50 then
          .ok ({ instrument := inst, score := sc,
                 display_text := format_instrument_display inst } :: tail)
        else
          .ok tail

/-- `InstrumentMapper.smart_search` (src/utils/instrument_mapper.py):
uppercase and strip the query, score every cached instrument, keep scores
above 50, sort descending by score and truncate to `limit`.  The function has
no `try/except`, so a raising score computation propagates (hence `Except`). -/
def smart_search (pr : String → String → ℕ) (cache : List CacheInstrument)
    (query : String) (limit : ℕ) : Except Unit (List ScoredMatch) := do
  let q := pyTrim (pyUpper query)
  let parts := pySplit q
  let ms ← smartSearchLoop pr q parts cache
  .ok ((ms.insertionSort (fun a b => b.score ≤ a.score)).take limit)

/-- `InstrumentMapper.get_instrument_by_token`: first cached instrument whose
stored token equals the argument, else `None`. -/
def get_instrument_by_token (cache : List CacheInstrument) (token : ℤ) :
    Option CacheInstrument :=
  cache.find? (fun inst => inst.token = some token)

/-- `InstrumentMapper.get_instrument_by_isin`. -/
def get_instrument_by_isin (cache : List CacheInstrument) (isin : String) :
    Option CacheInstrument :=
  cache.find? (fun inst => inst.isin = some isin)

/-! ## Market instrument mapper (src/market/instrument_mapper.py) -/

/-- A row of the market mapper's instrument DataFrame. -/
structure MarketRow where
  segment : String
  trading_symbol : String
  isin : String
deriving DecidableEq, Repr

/-- `InstrumentMapper.search_by_trading_symbol` (src/market/instrument_mapper.py):
`None` on an empty frame; otherwise the first row matching segment
(case-insensitively) and trading symbol (stripped, case-insensitively),
formatted as `segment|isin`, or `None` when no row matches. -/
def search_by_trading_symbol (df : List MarketRow) (segment trading_symbol : String) :
    Option String :=
  if df.isEmpty then none
  else
    match df.filter (fun r =>
        pyUpper r.segment = pyUpper segment ∧
        pyUpper (pyTrim r.trading_symbol) = pyUpper (pyTrim trading_symbol)) with
    | [] => none
    | r :: _ => some (r.segment ++ "|" ++ r.isin)

/-! ## Indicator engine (src/processors/stock_processor.py) -/

/-- One OHLCV bar, a row of the historical DataFrame (`open` is a Lean
keyword, hence `open_price`). -/
structure Bar where
  timestamp : ℤ
  open_price : ℚ
  high : ℚ
  low : ℚ
  close : ℚ
  volume : ℚ
deriving DecidableEq, Repr

/-- Maximum of a value list, `none` when empty. -/
def listMax : List ℚ → Option ℚ
  | [] => none
  | a :: t => some (t.foldl max a)

/-- Minimum of a value list, `none` when empty. -/
def listMin : List ℚ → Option ℚ
  | [] => none
  | a :: t => some (t.foldl min a)

/-- `series.rolling(window=20, center=True).max()` at row `i`: pandas places
an even centered window of 20 rows over rows `[i-10, i+9]`, and with the
default `min_periods` the value is `NaN` (here `none`) unless the whole
window lies inside the series. -/
def rollingCenterMax (vals : List ℚ) (i : ℕ) : Option ℚ :=
  if 10 ≤ i ∧ i + 10 ≤ vals.length then listMax ((vals.drop (i - 10)).take 20)
  else none

/-- `series.rolling(window=20, center=True).min()` at row `i`. -/
def rollingCenterMin (vals : List ℚ) (i : ℕ) : Option ℚ :=
  if 10 ≤ i ∧ i + 10 ≤ vals.length then listMin ((vals.drop (i - 10)).take 20)
  else none

/-- The rows selected by `df[df['high'] == df['Local_Max']]['high']`: values
equal to their centered rolling maximum (a `NaN` window compares unequal). -/
def localMaxVals (vals : List ℚ) : List ℚ :=
  (List.range vals.length).filterMap (fun i =>
    match vals.get? i, rollingCenterMax vals i with
    | some h, some m => if h = m then some h else none
    | _, _ => none)

/-- The rows selected by `df[df['low'] == df['Local_Min']]['low']`. -/
def localMinVals (vals : List ℚ) : List ℚ :=
  (List.range vals.length).filterMap (fun i =>
    match vals.get? i, rollingCenterMin vals i with
    | some l, some m => if l = m then some l else none
    | _, _ => none)

/-- Helper for `pdUnique`: keep the values not seen before (`seen` holds the
values already emitted). -/
def pdUniqueAux : List ℚ → List ℚ → List ℚ
  | [], _ => []
  | a :: t, seen => if a ∈ seen then pdUniqueAux t seen else a :: pdUniqueAux t (a :: seen)

/-- `pandas.Series.unique()`: distinct values in order of first appearance. -/
def pdUnique (l : List ℚ) : List ℚ := pdUniqueAux l []

/-- `sorted(resistance_levels)[-5:]`: the distinct local-maxima values of the
highs, sorted ascending, last five kept. -/
def resistanceLevels (bars : List Bar) : List ℚ :=
  let lv := (pdUnique (localMaxVals (bars.map Bar.high))).insertionSort (fun a b => a ≤ b)
  lv.drop (lv.length - 5)

/-- `sorted(support_levels)[:5]`: the distinct local-minima values of the
lows, sorted ascending, first five kept. -/
def supportLevels (bars : List Bar) : List ℚ :=
  ((pdUnique (localMinVals (bars.map Bar.low))).insertionSort (fun a b => a ≤ b)).take 5

/-- Python `list.tolist()`: `sorted(...)` returns a plain Python list, which
has no `tolist` method, so this attribute access raises `AttributeError`
unconditionally. -/
def pyListTolist (_levels : List ℚ) : Except Unit (List ℚ) := .error ()

/-- The dict returned by `find_support_resistance`. -/
structure SRLevels where
  support : List ℚ
  resistance : List ℚ
deriving DecidableEq, Repr

/-- `StockProcessor.find_support_resistance` (window fixed at the default
20): computes the level lists, then builds the return dict via
`support_levels.tolist()` / `resistance_levels.tolist()` — which raise, so
the `except` branch returns empty levels for every input. -/
def find_support_resistance (bars : List Bar) : SRLevels :=
  match pyListTolist (supportLevels bars), pyListTolist (resistanceLevels bars) with
  | .ok s, .ok r => { support := s, resistance := r }
  | _, _ => { support := [], resistance := [] }

/-! ## Analysis dispatcher (src/processors/analysis_processor.py) -/

/-- The uniform result/fetch dict `{success, data | error}`; `δ` is the
payload type of the `data` entry (opaque to the control flow verified here). -/
structure Res (δ : Type) where
  success : Bool
  error : Option String
  data : Option δ
deriving DecidableEq, Repr

/-- `_analyze_price_movement`: fetch, propagate a failed fetch verbatim,
otherwise hand over to the success-path computation (`compute` abstracts the
indicator arithmetic of lines 66-95, which this development does not rely
on).  A missing required parameter key raises and becomes the handler's
`except` dict. -/
def analyze_price_movement {δ : Type} (fetch : String → ℤ → Res δ)
    (compute : Params → Res δ → Res δ) (params : Params) : Res δ :=
  match params.symbol, params.from_date with
  | some s, some fd =>
    let sd := fetch s fd
    if sd.success = false then sd else compute params sd
  | _, _ => { success := false, error := some "KeyError", data := none }

/-- `_analyze_market_sentiment`: same fetch-then-compute shape. -/
def analyze_market_sentiment {δ : Type} (fetch : String → ℤ → Res δ)
    (compute : Params → Res δ → Res δ) (params : Params) : Res δ :=
  match params.symbol, params.from_date with
  | some s, some fd =>
    let sd := fetch s fd
    if sd.success = false then sd else compute params sd
  | _, _ => { success := false, error := some "KeyError", data := none }

/-- `_analyze_volume`. -/
def analyze_volume {δ : Type} (fetch : String → ℤ → Res δ)
    (compute : Params → Res δ → Res δ) (params : Params) : Res δ :=
  match params.symbol, params.from_date with
  | some s, some fd =>
    let sd := fetch s fd
    if sd.success = false then sd else compute params sd
  | _, _ => { success := false, error := some "KeyError", data := none }

/-- `_analyze_support_resistance`. -/
def analyze_support_resistance {δ : Type} (fetch : String → ℤ → Res δ)
    (compute : Params → Res δ → Res δ) (params : Params) : Res δ :=
  match params.symbol, params.from_date with
  | some s, some fd =>
    let sd := fetch s fd
    if sd.success = false then sd else compute params sd
  | _, _ => { success := false, error := some "KeyError", data := none }

/-- `_analyze_moving_averages`. -/
def analyze_moving_averages {δ : Type} (fetch : String → ℤ → Res δ)
    (compute : Params → Res δ → Res δ) (params : Params) : Res δ :=
  match params.symbol, params.from_date with
  | some s, some fd =>
    let sd := fetch s fd
    if sd.success = false then sd else compute params sd
  | _, _ => { success := false, error := some "KeyError", data := none }

/-- `_analyze_rsi`. -/
def analyze_rsi {δ : Type} (fetch : String → ℤ → Res δ)
    (compute : Params → Res δ → Res δ) (params : Params) : Res δ :=
  match params.symbol, params.from_date with
  | some s, some fd =>
    let sd := fetch s fd
    if sd.success = false then sd else compute params sd
  | _, _ => { success := false, error := some "KeyError", data := none }

/-- `_get_stock_details`. -/
def get_stock_details {δ : Type} (fetch : String → ℤ → Res δ)
    (compute : Params → Res δ → Res δ) (params : Params) : Res δ :=
  match params.symbol, params.from_date with
  | some s, some fd =>
    let sd := fetch s fd
    if sd.success = false then sd else compute params sd
  | _, _ => { success := false, error := some "KeyError", data := none }

/-- `_analyze_comparison`: fetch both symbols; if either fetch failed, return
`success=False` with the fixed message `"Failed to fetch comparison data"`
(not the fetch outcome itself); otherwise compute the comparison. -/
def analyze_comparison {δ : Type} (fetch : String → ℤ → Res δ)
    (compute : Params → Res δ → Res δ → Res δ) (params : Params) : Res δ :=
  match params.symbol1, params.symbol2, params.from_date with
  | some s1, some s2, some fd =>
    let sd1 := fetch s1 fd
    let sd2 := fetch s2 fd
    if sd1.success = false || sd2.success = false then
      { success := false, error := some "Failed to fetch comparison data", data := none }
    else compute params sd1 sd2
  | _, _, _ => { success := false, error := some "KeyError", data := none }

/-- The request dict handed to `process_analysis_request` (the prompt
processor's result, of which only `query_type` and `parameters` are read). -/
structure AnalysisRequest where
  query_type : Option String
  parameters : Params
deriving DecidableEq, Repr

/-- The message of the `AttributeError` raised while building the
`analysis_methods` dict: the class defines no `_analyze_historical_data` (nor
`_analyze_top_performers`, `_analyze_trend`), and the dict literal evaluates
`self._analyze_historical_data` first. -/
def attributeErrorMsg : String :=
  "AttributeError: AnalysisProcessor object has no attribute _analyze_historical_data"

/-- Building the `analysis_methods` dict (lines 25-38): raises before any
dispatch can happen, because three of the twelve referenced handler methods
do not exist on the class.  Were it to succeed it would yield the key list of
the mapping. -/
def analysis_methods_table : Except Unit (List String) := .error ()

/-- `AnalysisProcessor.process_analysis_request`: build the handler table,
look up `query_type`, dispatch or report the unsupported type; any exception
is caught and returned as `{success: False, error: str(e)}`.  `run` stands
for invoking the bound handler of a given name (never reached, since the
table construction raises). -/
def process_analysis_request {δ : Type} (run : String → Params → Res δ)
    (req : AnalysisRequest) : Res δ :=
  match analysis_methods_table with
  | .error _ => { success := false, error := some attributeErrorMsg, data := none }
  | .ok keys =>
    match req.query_type with
    | some qt =>
      if qt ∈ keys then run qt req.parameters
      else { success := false, error := some ("Unsupported analysis type: " ++ qt),
             data := none }
    | none =>
      { success := false, error := some "Unsupported analysis type: None", data := none }

/-! ## Theorems -/

/-- C3: for every non-negative integer duration and every unit in
day/week/month/year, `_calculate_date_range` returns now minus the duration
converted via the fixed table (day = 1 day, week = 7 days, month = 30 days,
year = 365 days, in seconds), and the result never exceeds now. -/
theorem date_range_fixed_table (now : ℤ) (d : ℕ) :
    calculate_date_range now d "day" = .ok (now - d * 86400) ∧
    calculate_date_range now d "week" = .ok (now - d * 7 * 86400) ∧
    calculate_date_range now d "month" = .ok (now - d * 30 * 86400) ∧
    calculate_date_range now d "year" = .ok (now - d * 365 * 86400) ∧
    ∀ u, u ∈ (["day", "week", "month", "year"] : List String) →
      ∀ fd, calculate_date_range now d u = .ok fd → fd ≤ now := by
  have hday : pyLower "day" = "day" := by decide
  have hweek : pyLower "week" = "week" := by decide
  have hmonth : pyLower "month" = "month" := by decide
  have hyear : pyLower "year" = "year" := by decide
  refine ⟨?_, ?_, ?_, ?_, ?_⟩
  · simp [calculate_date_range, hday, unit_mapping]
  · simp [calculate_date_range, hweek, unit_mapping]
  · simp [calculate_date_range, hmonth, unit_mapping]
  · simp [calculate_date_range, hyear, unit_mapping]
  · intro u hu fd hfd
    fin_cases hu
    · simp [calculate_date_range, hday, unit_mapping] at hfd; omega
    · simp [calculate_date_range, hweek, unit_mapping] at hfd; omega
    · simp [calculate_date_range, hmonth, unit_mapping] at hfd; omega
    · simp [calculate_date_range, hyear, unit_mapping] at hfd; omega

/-- Witness for C3 at duration 3, unit "week", now 1000. -/
theorem date_range_fixed_table_witness :
    ∃ fd, calculate_date_range 1000 3 "week" = .ok fd ∧ fd ≤ 1000 := by
  have h := date_range_fixed_table 1000 3
  exact ⟨_, h.2.1, h.2.2.2.2 "week" (by simp) _ h.2.1⟩

/-- C9: every lookup against an empty (unloaded) instrument directory — the
fuzzy search, the exact trading-symbol search and the token/ISIN lookups —
returns an empty or not-found value; in particular the fuzzy search returns
`.ok []`, i.e. no exception escapes. -/
theorem empty_directory_lookups :
    (∀ pr query limit, smart_search pr [] query limit = .ok []) ∧
    (∀ seg ts, search_by_trading_symbol [] seg ts = none) ∧
    (∀ t, get_instrument_by_token [] t = none) ∧
    (∀ i, get_instrument_by_isin [] i = none) := by
  refine ⟨fun pr q l => ?_, fun seg ts => rfl, fun t => rfl, fun i => rfl⟩
  cases l <;> rfl

/-- C6 (code bug): the dispatcher never reaches its unsupported-type branch —
building the `analysis_methods` dict raises `AttributeError` because three
referenced handlers do not exist, so a request with an unknown `query_type`
gets the attribute-error message rather than "Unsupported analysis type". -/
theorem dispatch_unknown_intent_attribute_error :
    ∀ (δ : Type) (run : String → Params → Res δ) (params : Params),
      process_analysis_request run
          { query_type := some "bollinger_bands", parameters := params } =
        { success := false, error := some attributeErrorMsg, data := none } ∧
      attributeErrorMsg ≠ "Unsupported analysis type: bollinger_bands" := by
  intro δ run params
  exact ⟨rfl, by decide⟩

/-- The high column of the triangular 25-bar series used to exhibit C8:
highs peak at 20 on row 12. -/
def triHighs : List ℚ :=
  [8, 9, 10, 11, 12, 13, 14, 15, 16, 17, 18, 19, 20,
   19, 18, 17, 16, 15, 14, 13, 12, 11, 10, 9, 8]

/-- The low column of the triangular series: lows bottom out at 1 on row 12. -/
def triLows : List ℚ :=
  [13, 12, 11, 10, 9, 8, 7, 6, 5, 4, 3, 2, 1,
   2, 3, 4, 5, 6, 7, 8, 9, 10, 11, 12, 13]

/-- The triangular 25-bar series. -/
def triBars : List Bar :=
  List.zipWith
    (fun h l => { timestamp := 0, open_price := 0, high := h, low := l,
                  close := 0, volume := 0 })
    triHighs triLows

/-- C8 (code bug): `find_support_resistance` returns empty support and
resistance for every input — `sorted(...)` yields a plain Python list whose
`.tolist()` raises, and the `except` swallows it — although the level
pipeline it discards does compute the documented top/bottom distinct
local-extrema values (here `[20]` and `[1]` on the triangular series). -/
theorem find_support_resistance_always_empty :
    (∀ bars, find_support_resistance bars = { support := [], resistance := [] }) ∧
    resistanceLevels triBars = [20] ∧ supportLevels triBars = [1] := by
  refine ⟨fun bars => rfl, by decide, by decide⟩

/-- A fetch stub whose outcome is always a failure carrying error "boom". -/
def fetchBoom : String → ℤ → Res Unit :=
  fun _ _ => { success := false, error := some "boom", data := none }

/-- A trivial success-path computation (never reached in the statements). -/
def computeTrivial : Params → Res Unit → Res Unit := fun _ r => r

/-- A trivial two-series computation for the comparison handler. -/
def computeTrivial2 : Params → Res Unit → Res Unit → Res Unit := fun _ r _ => r

/-- Parameters with a resolved symbol, a comparison pair and a from-date. -/
def paramsBoom : Params :=
  { emptyParams with symbol := some "TCS", symbol1 := some "HDFC",
                     symbol2 := some "ICICI", from_date := some 0 }

/-- C7 counterexample: the comparison handler does not return the failed
fetch outcome verbatim — the fetch fails with error "boom" but the handler
answers with the fixed message "Failed to fetch comparison data". -/
theorem comparison_handler_not_verbatim :
    (analyze_comparison fetchBoom computeTrivial2 paramsBoom).error =
      some "Failed to fetch comparison data" ∧
    (fetchBoom "HDFC" 0).error = some "boom" ∧
    analyze_comparison fetchBoom computeTrivial2 paramsBoom ≠ fetchBoom "HDFC" 0 := by
  exact ⟨rfl, rfl, by decide⟩

/-- C7 as amended: every handler that fetches a single symbol's series
returns a failed fetch outcome verbatim as its own result (computing
nothing), while the comparison handler maps a failure of either fetch to
`success=False` with the fixed error "Failed to fetch comparison data". -/
theorem fetch_failure_propagation {δ : Type} (fetch : String → ℤ → Res δ)
    (compute : Params → Res δ → Res δ) (compute2 : Params → Res δ → Res δ → Res δ)
    (params : Params) (s : String) (fd : ℤ)
    (hs : params.symbol = some s) (hfd : params.from_date = some fd)
    (hfail : (fetch s fd).success = false) :
    analyze_price_movement fetch compute params = fetch s fd ∧
    analyze_market_sentiment fetch compute params = fetch s fd ∧
    analyze_volume fetch compute params = fetch s fd ∧
    analyze_support_resistance fetch compute params = fetch s fd ∧
    analyze_moving_averages fetch compute params = fetch s fd ∧
    analyze_rsi fetch compute params = fetch s fd ∧
    get_stock_details fetch compute params = fetch s fd ∧
    ∀ s1 s2, params.symbol1 = some s1 → params.symbol2 = some s2 →
      ((fetch s1 fd).success = false ∨ (fetch s2 fd).success = false) →
      analyze_comparison fetch compute2 params =
        { success := false, error := some "Failed to fetch comparison data",
          data := none } := by
  refine ⟨?_, ?_, ?_, ?_, ?_, ?_, ?_, ?_⟩
  · simp [analyze_price_movement, hs, hfd, hfail]
  · simp [analyze_market_sentiment, hs, hfd, hfail]
  · simp [analyze_volume, hs, hfd, hfail]
  · simp [analyze_support_resistance, hs, hfd, hfail]
  · simp [analyze_moving_averages, hs, hfd, hfail]
  · simp [analyze_rsi, hs, hfd, hfail]
  · simp [get_stock_details, hs, hfd, hfail]
  · intro s1 s2 h1 h2 hor
    rcases hor with h | h <;> simp [analyze_comparison, h1, h2, hfd, h]

/-- Binding a successful `Except` computation runs the continuation. -/
lemma okBind {α β : Type} (a : α) (f : α → Except Unit β) :
    (Except.ok a : Except Unit α) >>= f = f a := rfl

/-- `int` succeeds on a numeral capture. -/
lemma pyInt_isNumeral {s : String} (h : IsNumeral s) :
    pyInt s = .ok (digitsToNat s.data) := if_pos h

/-- `_calculate_date_range` succeeds whenever the lowercased unit is in its
table. -/
lemma calculate_date_range_ok (now : ℤ) (k : ℕ) (u : String)
    (h : pyLower u ∈ (["year", "month", "day", "week"] : List String)) :
    ∃ v, calculate_date_range now k u = .ok v := by
  simp only [List.mem_cons, List.mem_singleton, List.not_mem_nil, or_false] at h
  rcases h with h | h | h | h
  · exact ⟨now - k * 365 * 86400, by simp [calculate_date_range, h, unit_mapping]⟩
  · exact ⟨now - k * 30 * 86400, by simp [calculate_date_range, h, unit_mapping]⟩
  · exact ⟨now - k * 86400, by simp [calculate_date_range, h, unit_mapping]⟩
  · exact ⟨now - k * 7 * 86400, by simp [calculate_date_range, h, unit_mapping]⟩

/-- The date-range table on the unit "day". -/
lemma calculate_date_range_day (now : ℤ) (k : ℕ) :
    calculate_date_range now k "day" = .ok (now - k * 86400) := rfl

/-- The loop head commits to the first pattern in declared order that
matches, whatever the later patterns would do. -/
lemma findFirstPattern_eq (m : Matcher) (prompt : String) (qt : QueryType)
    (g : List (Option String)) (l₂ : List QueryType) :
    ∀ l₁, (∀ q ∈ l₁, m q prompt = none) → m qt prompt = some g →
      findFirstPattern m prompt (l₁ ++ qt :: l₂) = some (qt, g) := by
  intro l₁
  induction l₁ with
  | nil =>
    intro _ hm
    simp [findFirstPattern, hm]
  | cons a t ih =>
    intro hnone hm
    have ha : m a prompt = none := hnone a (by simp)
    simp only [List.cons_append, findFirstPattern, ha]
    exact ih (fun q hq => hnone q (by simp [hq])) hm

/-- Symbol resolution rewrites only the `symbol` and `instrument_token`
entries: period, duration and unit pass through unchanged. -/
lemma resolveSymbol_preserves (insts : List PyInstrument) (p : Params)
    (m0 : MatchesVal) :
    (resolveSymbol insts p m0).1.period = p.period ∧
    (resolveSymbol insts p m0).1.duration = p.duration ∧
    (resolveSymbol insts p m0).1.unit = p.unit := by
  unfold resolveSymbol
  cases hp : p.symbol with
  | none => simp
  | some s =>
    by_cases hs : s = ""
    · simp [hs]
    · simp only [hs, if_neg, ite_false]
      cases hms : find_matching_instruments insts s with
      | nil => simp
      | cons c t => cases t <;> simp

/-- Under the shape guarantees of the fixed regexes, the per-intent parameter
extraction succeeds for every intent except `price_movement` (whose captures
are unpacked in the wrong order, so `int()` on the symbol text raises), and
it installs the intent-specific defaults: period 50 for a moving-averages
match without an explicit period, period 14 and a 30-day window for RSI, a
90-day window for support/resistance, and a 30-day window for the
comparison, sector, volume and simple symbol intents. -/
lemma extractParams_ok (insts : List PyInstrument) (now : ℤ) (qt : QueryType)
    (g : List (Option String)) (hqt : qt ≠ .price_movement)
    (hwf : GroupsWF qt g) :
    ∃ p0 m0, extractParams insts qt g now = .ok (p0, m0) ∧
      (qt = .moving_averages → g.getD 0 none = none → p0.period = some 50) ∧
      (qt = .rsi_analysis →
        p0.period = some 14 ∧ p0.duration = some 30 ∧ p0.unit = some "day") ∧
      (qt = .support_resistance →
        p0.duration = some 90 ∧ p0.unit = some "day") ∧
      (qt ∈ ([.comparison, .sector_performance, .volume_analysis, .trend_analysis,
              .stock_details, .market_sentiment, .dividend_history, .news_sentiment] :
              List QueryType) →
        p0.duration = some 30 ∧ p0.unit = some "day") := by
  cases qt with
  | historical =>
    obtain ⟨d, u, s, hg, hnum, hu⟩ := hwf
    subst hg
    obtain ⟨v, hv⟩ := calculate_date_range_ok now (digitsToNat d.data) u hu
    have heq : extractParams insts .historical [some d, some u, some s] now =
        .ok ({ emptyParams with
                 duration := some (digitsToNat d.data), unit := some u,
                 symbol := some (pyTrim s), from_date := some v },
             .lst []) := by
      simp only [extractParams, extractParams.extractBasicDUS, List.getD,
        List.get?, Option.getD, pyReq, okBind, pyInt_isNumeral hnum, hv]
    exact ⟨_, _, heq, by simp, by simp, by simp, by simp⟩
  | price_movement => exact absurd rfl hqt
  | top_performers =>
    obtain ⟨c, d, u, hg, hc, hd, hu⟩ := hwf
    subst hg
    have hu4 : pyLower u ∈ (["year", "month", "day", "week"] : List String) := by
      simp only [List.mem_cons, List.mem_singleton] at hu ⊢
      tauto
    obtain ⟨v, hv⟩ := calculate_date_range_ok now (digitsToNat d.data) u hu4
    have heq : extractParams insts .top_performers [some c, some d, some u] now =
        .ok ({ emptyParams with
                 count := some (digitsToNat c.data),
                 duration := some (digitsToNat d.data), unit := some u,
                 from_date := some v }, .lst []) := by
      simp only [extractParams, List.getD, List.get?, Option.getD, pyReq, okBind,
        pyInt_isNumeral hc, pyInt_isNumeral hd, hv]
    exact ⟨_, _, heq, by simp, by simp, by simp, by simp⟩
  | moving_averages =>
    obtain ⟨o, s, hg, hnum⟩ := hwf
    subst hg
    cases o with
    | none =>
      refine ⟨_, _, rfl, ?_, by simp, by simp, by simp⟩
      intro _ _
      rfl
    | some ps =>
      by_cases hne : ps = ""
      · subst hne
        refine ⟨_, _, rfl, ?_, by simp, by simp, by simp⟩
        intro _ _
        rfl
      · have hp := pyInt_isNumeral (hnum ps rfl hne)
        have heq : extractParams insts .moving_averages [some ps, some s] now =
            .ok ({ emptyParams with
                     symbol := some (pyTrim s),
                     period := some (digitsToNat ps.data),
                     from_date := some (now - digitsToNat ps.data * 86400) },
                 .lst []) := by
          simp only [extractParams, List.getD, List.get?, Option.getD, pyOr,
            if_neg hne, pyReq, okBind, hp, calculate_date_range_day]
        refine ⟨_, _, heq, ?_, by simp, by simp, by simp⟩
        intro _ hg0
        simp at hg0
  | comparison =>
    obtain ⟨s1, s2, hg⟩ := hwf
    subst hg
    refine ⟨_, _, rfl, by simp, by simp, by simp, ?_⟩
    intro _
    exact ⟨rfl, rfl⟩
  | sector_performance =>
    obtain ⟨s, hg⟩ := hwf
    subst hg
    refine ⟨_, _, rfl, by simp, by simp, by simp, ?_⟩
    intro _
    exact ⟨rfl, rfl⟩
  | support_resistance =>
    obtain ⟨s, hg⟩ := hwf
    subst hg
    exact ⟨_, _, rfl, by simp, by simp, fun _ => ⟨rfl, rfl⟩, by simp⟩
  | rsi_analysis =>
    obtain ⟨s, hg⟩ := hwf
    subst hg
    exact ⟨_, _, rfl, by simp, fun _ => ⟨rfl, rfl, rfl⟩, by simp, by simp⟩
  | volume_analysis =>
    obtain ⟨s, hg⟩ := hwf
    subst hg
    refine ⟨_, _, rfl, by simp, by simp, by simp, fun _ => ⟨rfl, rfl⟩⟩
  | trend_analysis =>
    obtain ⟨o, hg⟩ := hwf
    subst hg
    refine ⟨_, _, rfl, by simp, by simp, by simp, fun _ => ⟨rfl, rfl⟩⟩
  | market_sentiment =>
    obtain ⟨o, hg⟩ := hwf
    subst hg
    refine ⟨_, _, rfl, by simp, by simp, by simp, fun _ => ⟨rfl, rfl⟩⟩
  | stock_details =>
    obtain ⟨s, hg⟩ := hwf
    subst hg
    refine ⟨_, _, rfl, by simp, by simp, by simp, fun _ => ⟨rfl, rfl⟩⟩
  | dividend_history =>
    obtain ⟨s, hg⟩ := hwf
    subst hg
    refine ⟨_, _, rfl, by simp, by simp, by simp, fun _ => ⟨rfl, rfl⟩⟩
  | news_sentiment =>
    obtain ⟨s, hg⟩ := hwf
    subst hg
    refine ⟨_, _, rfl, by simp, by simp, by simp, fun _ => ⟨rfl, rfl⟩⟩

/-- `process_prompt` on a text whose first matching pattern (in declared
order) is `qt` runs exactly the `qt` branch. -/
lemma process_prompt_first (m : Matcher) (insts : List PyInstrument) (now : ℤ)
    (prompt : String) (l₁ l₂ : List QueryType) (qt : QueryType)
    (g : List (Option String)) (horder : patternOrder = l₁ ++ qt :: l₂)
    (hnone : ∀ q ∈ l₁, m q prompt = none) (hm : m qt prompt = some g) :
    process_prompt m insts now prompt =
      match extractResolve insts qt g now prompt with
      | .ok r => .ok r
      | .error _ => .failed prompt := by
  unfold process_prompt
  rw [horder, findFirstPattern_eq m prompt qt g l₂ l₁ hnone hm]

/-- The matched-branch body, given successful extraction. -/
lemma extractResolve_eq (insts : List PyInstrument) (qt : QueryType)
    (g : List (Option String)) (now : ℤ) (prompt : String) (p0 : Params)
    (m0 : MatchesVal) (h : extractParams insts qt g now = .ok (p0, m0)) :
    extractResolve insts qt g now prompt = .ok
      { action := some ("get_" ++ qtName qt), query_type := some qt,
        parameters := (resolveSymbol insts p0 m0).1,
        matchesv := (resolveSymbol insts p0 m0).2,
        original_prompt := prompt } := by
  rcases hres : resolveSymbol insts p0 m0 with ⟨p1, m1⟩
  simp only [extractResolve, h, okBind, hres]

/-- The text used to exhibit C1; of the fourteen intent regexes, only the
`price_movement` one matches it (none of the others' leading verb or keyword
alternatives occur in the text), capturing ("TCS", "30", "day") — the symbol
is group 1. -/
def pmPrompt : String := "Analyze the price movement of TCS over the last 30 days"

/-- `re.search` of each fixed pattern on `pmPrompt`. -/
def mPM : Matcher := fun qt _ =>
  if qt = QueryType.price_movement then some [some "TCS", some "30", some "day"]
  else none

/-- C1 (code bug): the loop does commit to the earliest matching pattern
(`price_movement`, whose captures satisfy the regex's guaranteed shape), but
the program does not return that `query_type`: `_extract_basic_parameters`
unpacks the captures as `duration, unit, symbol` while the `price_movement`
regex captures the symbol first, so `int("TCS")` raises and the `except`
returns the error dict with no `query_type` at all. -/
theorem price_movement_first_match_loses_query_type :
    findFirstPattern mPM pmPrompt patternOrder =
      some (QueryType.price_movement, [some "TCS", some "30", some "day"]) ∧
    GroupsWF QueryType.price_movement [some "TCS", some "30", some "day"] ∧
    process_prompt mPM [] 0 pmPrompt = .failed pmPrompt := by
  refine ⟨by decide, ⟨"TCS", "30", "day", rfl, by decide, by decide,
    ⟨by decide, by decide⟩, by decide⟩, by decide⟩

/-- The witness matcher: only the RSI pattern matches, capturing " wipro ". -/
def mW : Matcher := fun qt _ =>
  if qt = QueryType.rsi_analysis then some [some " wipro "] else none

/-- The witness matcher has the regex-guaranteed capture shapes. -/
lemma mW_wf : WellFormedMatcher mW := by
  intro qt prompt g h
  by_cases hqt : qt = QueryType.rsi_analysis
  · subst hqt
    have hm : mW QueryType.rsi_analysis prompt = some [some " wipro "] := rfl
    rw [hm] at h
    cases h
    exact ⟨" wipro ", rfl⟩
  · have hm : mW qt prompt = none := by simp [mW, hqt]
    rw [hm] at h
    cases h

/-- The patterns before `rsi_analysis` in declared order. -/
def beforeRsi : List QueryType :=
  [.historical, .top_performers, .trend_analysis, .stock_details,
   .price_movement, .market_sentiment, .volume_analysis, .sector_performance,
   .comparison, .support_resistance, .moving_averages]

/-- C2: the symbol-resolution step of `process_prompt` — when the extracted
parameters carry a (nonempty) symbol, a single-candidate search rewrites the
symbol to the candidate's canonical trading symbol and attaches its token,
while zero or several candidates leave the parameters exactly as extracted
and pass the candidate list through. -/
theorem symbol_auto_resolution (insts : List PyInstrument) (p : Params)
    (m0 : MatchesVal) (s : String) (hs : p.symbol = some s) (hne : s ≠ "") :
    (∀ c, find_matching_instruments insts s = [c] →
      resolveSymbol insts p m0 =
        ({ p with symbol := some c.symbol, instrument_token := c.token },
         .lst [c])) ∧
    ((find_matching_instruments insts s).length ≠ 1 →
      resolveSymbol insts p m0 = (p, .lst (find_matching_instruments insts s))) := by
  constructor
  · intro c hc
    simp only [resolveSymbol, hs, hne, ite_false, hc]
  · intro hlen
    cases hms : find_matching_instruments insts s with
    | nil => simp only [resolveSymbol, hs, hne, ite_false, hms]
    | cons c t =>
      cases t with
      | nil => rw [hms] at hlen; simp at hlen
      | cons d t2 => simp only [resolveSymbol, hs, hne, ite_false, hms]

/-- The concrete instrument for the C2 witness and the C10 evaluation. -/
def instP : PyInstrument :=
  { tradingsymbol := some "TCS", company_name := some "Tata Consultancy Services",
    exchange := some "NSE", instrument_type := some "EQ",
    instrument_token := some 11536 }

/-- The candidate dict `find_matching_instruments` builds from `instP`. -/
def candP : Candidate :=
  { symbol := "TCS", name := "Tata Consultancy Services", exchange := "NSE",
    instrument_type := "EQ", token := some 11536 }

/-- Witness for C2: the single-candidate search for "tc" rewrites the symbol
to "TCS" and attaches token 11536; against an empty directory the parameters
stay as extracted. -/
theorem symbol_auto_resolution_witness :
    resolveSymbol [instP] { emptyParams with symbol := some "tc" } (.lst []) =
      ({ emptyParams with symbol := some "TCS", instrument_token := some 11536 },
       .lst [candP]) ∧
    resolveSymbol [] { emptyParams with symbol := some "tc" } (.lst []) =
      ({ emptyParams with symbol := some "tc" }, .lst []) := by
  have hfm : find_matching_instruments [instP] "tc" = [candP] := by decide
  have h1 := (symbol_auto_resolution [instP]
    { emptyParams with symbol := some "tc" } (.lst []) "tc" rfl
    (by decide)).1 candP hfm
  have h2 := (symbol_auto_resolution []
    { emptyParams with symbol := some "tc" } (.lst []) "tc" rfl
    (by decide)).2 (by decide)
  constructor
  · exact h1.trans (by rfl)
  · exact h2.trans (by rfl)

/-- C5: for every matched intent among those with default parameters —
`moving_averages` (period 50 when no explicit period was captured),
`rsi_analysis` (period 14, 30-day duration), `support_resistance` (90-day
duration), and comparison, sector, volume and the simple/default symbol
intents (30-day duration) — the intent-specific defaults are applied.
(The intents with captured durations — historical, top_performers,
price_movement — have no defaults and are outside the claim; price_movement
moreover never parses, see the C1 theorem.) -/
theorem intent_parameter_defaults (m : Matcher) (insts : List PyInstrument)
    (now : ℤ) (prompt : String) (hwf : WellFormedMatcher m)
    (l₁ l₂ : List QueryType) (qt : QueryType) (g : List (Option String))
    (hdflt : qt ∈ ([.moving_averages, .rsi_analysis, .support_resistance,
                    .comparison, .sector_performance, .volume_analysis,
                    .trend_analysis, .stock_details, .market_sentiment,
                    .dividend_history, .news_sentiment] : List QueryType))
    (horder : patternOrder = l₁ ++ qt :: l₂)
    (hnone : ∀ q ∈ l₁, m q prompt = none) (hm : m qt prompt = some g) :
    ∃ r, process_prompt m insts now prompt = .ok r ∧
      (qt = .moving_averages → g.getD 0 none = none →
        r.parameters.period = some 50) ∧
      (qt = .rsi_analysis → r.parameters.period = some 14 ∧
        r.parameters.duration = some 30 ∧ r.parameters.unit = some "day") ∧
      (qt = .support_resistance →
        r.parameters.duration = some 90 ∧ r.parameters.unit = some "day") ∧
      (qt ∈ ([.comparison, .sector_performance, .volume_analysis, .trend_analysis,
              .stock_details, .market_sentiment, .dividend_history, .news_sentiment] :
              List QueryType) →
        r.parameters.duration = some 30 ∧ r.parameters.unit = some "day") := by
  have hqt : qt ≠ .price_movement := by
    intro h
    subst h
    simp at hdflt
  obtain ⟨p0, m0, heq, h1, h2, h3, h4⟩ :=
    extractParams_ok insts now qt g hqt (hwf qt prompt g hm)
  rw [process_prompt_first m insts now prompt l₁ l₂ qt g horder hnone hm,
    extractResolve_eq insts qt g now prompt p0 m0 heq]
  obtain ⟨hpres1, hpres2, hpres3⟩ := resolveSymbol_preserves insts p0 m0
  refine ⟨_, rfl, ?_, ?_, ?_, ?_⟩
  · intro ha hb
    simpa [hpres1] using h1 ha hb
  · intro ha
    obtain ⟨x1, x2, x3⟩ := h2 ha
    exact ⟨by simpa [hpres1] using x1, by simpa [hpres2] using x2,
      by simpa [hpres3] using x3⟩
  · intro ha
    obtain ⟨x1, x2⟩ := h3 ha
    exact ⟨by simpa [hpres2] using x1, by simpa [hpres3] using x2⟩
  · intro ha
    obtain ⟨x1, x2⟩ := h4 ha
    exact ⟨by simpa [hpres2] using x1, by simpa [hpres3] using x2⟩

/-- Witness for C5 at the RSI intent: period 14, duration 30, unit "day". -/
theorem intent_parameter_defaults_witness :
    ∃ r, process_prompt mW [] 0 "Calculate RSI analysis for wipro" = .ok r ∧
      r.parameters.period = some 14 ∧ r.parameters.duration = some 30 ∧
      r.parameters.unit = some "day" := by
  obtain ⟨r, hr, -, h2, -, -⟩ := intent_parameter_defaults mW [] 0
    "Calculate RSI analysis for wipro" mW_wf beforeRsi
    [.dividend_history, .news_sentiment] .rsi_analysis [some " wipro "]
    (by decide) rfl (by decide) rfl
  exact ⟨r, hr, h2 rfl⟩

/-- C10 (code bug): as wired, the candidate search returns no candidates for
any query — `get_all_instruments` does not exist on the mapper, the call
raises and the handler returns `[]` — although on a directory record of the
shape the function expects, its body would return exactly the
substring-containment matches (here: "TCS" finds the TCS candidate). -/
theorem find_matching_instruments_wired_empty :
    find_matching_instruments_wired "TCS" = [] ∧
    find_matching_instruments [instP] "TCS" = [candP] := by
  exact ⟨rfl, by decide⟩

/-- Every entry the `smart_search` loop collects has score above 50. -/
lemma smartSearchLoop_scores (pr : String → String → ℕ) (q : String)
    (parts : List String) :
    ∀ (cache : List CacheInstrument) (ms : List ScoredMatch),
      smartSearchLoop pr q parts cache = .ok ms → ∀ x ∈ ms, 50 < x.score := by
  intro cache
  induction cache with
  | nil =>
    intro ms h x hx
    simp only [smartSearchLoop] at h
    cases h
    simp at hx
  | cons inst rest ih =>
    intro ms h x hx
    simp only [smartSearchLoop] at h
    split at h
    · cases h
    · split at h
      · cases h
      · rename_i tail ht
        split at h
        · rename_i hgt
          cases h
          rcases List.mem_cons.mp hx with hx1 | hx2
          · subst hx1; exact hgt
          · exact ih tail ht x hx2
        · cases h
          exact ih _ ht x hx

/-- The sum of nonnegative bonus terms accumulated by a fold is nonnegative. -/
lemma foldl_add_nonneg {β : Type} (f : β → ℚ) (hf : ∀ b, 0 ≤ f b) :
    ∀ (l : List β) (a : ℚ), 0 ≤ a → 0 ≤ l.foldl (fun acc b => acc + f b) a := by
  intro l
  induction l with
  | nil => intro a ha; simpa using ha
  | cons b t ih =>
    intro a ha
    exact ih (a + f b) (add_nonneg ha (hf b))

/-- C4: in the fuzzy search, an instrument whose trading symbol equals the
uppercased, stripped query scores at least 100, and no entry with score at or
below the threshold of 50 (in particular none below 50) appears in the
returned results. -/
theorem smart_search_scoring (pr : String → String → ℕ)
    (cache : List CacheInstrument) (query : String) (limit : ℕ) :
    (∀ inst nm sc, inst.name = some nm →
        inst.trading_symbol = some (pyTrim (pyUpper query)) →
        smartSearchScore pr (pyTrim (pyUpper query))
            (pySplit (pyTrim (pyUpper query))) inst = .ok sc →
        100 ≤ sc) ∧
    (∀ res, smart_search pr cache query limit = .ok res →
        ∀ x ∈ res, 50 < x.score) := by
  constructor
  · intro inst nm sc hnm hts hsc
    simp only [smartSearchScore, hnm] at hsc
    rw [hts, if_pos rfl] at hsc
    cases hsc
    have h1 : (0 : ℚ) ≤ (pr (pyTrim (pyUpper query)) (pyUpper nm) : ℚ) * (1 / 2) := by
      positivity
    have h2 : (0 : ℚ) ≤
        (if inst.short_name = some (pyTrim (pyUpper query)) then (90 : ℚ)
         else if (pySplit (pyTrim (pyUpper query))).any
             (fun part => inst.short_name = some part) then 70 else 0) := by
      split_ifs <;> norm_num
    have h3 : (0 : ℚ) ≤
        (if pyStartsWith (pyTrim (pyUpper query)) "IN" ∧
            pyLen (pyTrim (pyUpper query)) = 12 ∧
            inst.isin = some (pyTrim (pyUpper query)) then (100 : ℚ) else 0) := by
      split_ifs <;> norm_num
    have h4 : (0 : ℚ) ≤ instrumentTypePairs.foldl
        (fun acc p =>
          acc + (if (p.1 ∈ pySplit (pyTrim (pyUpper query)) ∨
                     p.2 ∈ pySplit (pyTrim (pyUpper query))) ∧
                    (inst.instrument_type = some p.1 ∨ inst.instrument_type = some p.2)
                 then (50 : ℚ) else 0)) 0 := by
      apply foldl_add_nonneg
      · intro b; split_ifs <;> norm_num
      · norm_num
    have h5 : (0 : ℚ) ≤ (["NSE", "BSE"] : List String).foldl
        (fun acc e =>
          acc + (if e ∈ pySplit (pyTrim (pyUpper query)) ∧ inst.exchange = some e
                 then (50 : ℚ) else 0)) 0 := by
      apply foldl_add_nonneg
      · intro b; split_ifs <;> norm_num
      · norm_num
    linarith
  · intro res hres x hx
    have hq : ∃ ms, smartSearchLoop pr (pyTrim (pyUpper query))
        (pySplit (pyTrim (pyUpper query))) cache = .ok ms ∧
        res = (ms.insertionSort (fun a b => b.score ≤ a.score)).take limit := by
      simp only [smart_search] at hres
      cases hl : smartSearchLoop pr (pyTrim (pyUpper query))
          (pySplit (pyTrim (pyUpper query))) cache with
      | error e => rw [hl] at hres; cases hres
      | ok ms => rw [hl] at hres; cases hres; exact ⟨ms, rfl, rfl⟩
    obtain ⟨ms, hms, hres'⟩ := hq
    subst hres'
    have hx1 : x ∈ ms.insertionSort (fun a b => b.score ≤ a.score) :=
      List.take_subset _ _ hx
    have hx2 : x ∈ ms := (List.perm_insertionSort _ ms).mem_iff.mp hx1
    exact smartSearchLoop_scores pr _ _ cache ms hms x hx2

/-- The constant-zero similarity function used in the C4 witness. -/
def przero : String → String → ℕ := fun _ _ => 0

/-- The concrete instrument used in the C4 witness. -/
def instW : CacheInstrument :=
  { exchange := some "NSE", trading_symbol := some "TCS",
    name := some "TATA CONSULTANCY", instrument_type := some "EQ",
    short_name := some "TCS", isin := none, token := some 1 }

/-- Witness for C4: on the one-instrument directory, querying "TCS" scores
the exact-symbol instrument 190 (≥ 100) and every returned entry scores
above 50. -/
theorem smart_search_scoring_witness :
    (100 : ℚ) ≤ 190 ∧
    ∀ x ∈ [({ instrument := instW, score := 190,
              display_text := format_instrument_display instW } : ScoredMatch)],
      50 < x.score := by
  have h := smart_search_scoring przero [instW] "TCS" 5
  have hq : pyTrim (pyUpper "TCS") = "TCS" := by decide
  have hsc : smartSearchScore przero "TCS" (pySplit "TCS") instW = .ok 190 := by
    have hsplit : pySplit "TCS" = ["TCS"] := by decide
    rw [hsplit]
    simp only [smartSearchScore, instW]
    simp +decide only [przero, instrumentTypePairs, List.foldl, Nat.cast_zero]
    norm_num
  constructor
  · have hsc2 : smartSearchScore przero (pyTrim (pyUpper "TCS"))
        (pySplit (pyTrim (pyUpper "TCS"))) instW = .ok 190 := by rw [hq]; exact hsc
    have hts : instW.trading_symbol = some (pyTrim (pyUpper "TCS")) := by rw [hq]; rfl
    exact h.1 instW "TATA CONSULTANCY" 190 rfl hts hsc2
  · have hgt : (190 : ℚ) > 50 := by decide
    have hres : smart_search przero [instW] "TCS" 5 =
        .ok [({ instrument := instW, score := 190,
                display_text := format_instrument_display instW } : ScoredMatch)] := by
      simp only [smart_search, hq, smartSearchLoop, hsc, hgt, if_true]
      rfl
    exact h.2 _ hres

/-- Witness for C7's amended statement with the concrete failing fetch. -/
theorem fetch_failure_propagation_witness :
    analyze_price_movement fetchBoom computeTrivial paramsBoom = fetchBoom "TCS" 0 ∧
    analyze_comparison fetchBoom computeTrivial2 paramsBoom =
      { success := false, error := some "Failed to fetch comparison data",
        data := none } := by
  have h := fetch_failure_propagation fetchBoom computeTrivial computeTrivial2
    paramsBoom "TCS" 0 rfl rfl rfl
  exact ⟨h.1, h.2.2.2.2.2.2.2 "HDFC" "ICICI" rfl rfl (Or.inl rfl)⟩

end StockAssistant
